import Mathlib

/-!
Verification of the shipment-presence checker (`rieck_shipments_check.py`).

The core logic is embedded shallowly: strings are modelled as `List Char`,
spreadsheet cells as `Option (List Char)` (`none` = missing/NaN, the
spreadsheet is read with `dtype=str` so present cells are strings), pandas
Series of cleaned identifiers as Lean lists, Python sets as `Finset`, and
the abort-on-error control flow (`st.error` + `st.stop`) as `Except`.
-/

namespace RieckShipments

/-- A shipment identifier candidate: Python strings become `List Char`. -/
abbrev Ident := List Char

/-- `os.path.basename`: the final path component, i.e. everything after the
last `/` (POSIX behaviour, which is what the deployment target uses). -/
def basename (cs : List Char) : List Char :=
  (cs.reverse.takeWhile (fun c => c ≠ '/')).reverse

/-- Embeds `extract_shipment_from_filename`: take the base name and apply
`re.match(r"^(\d{8})", base)` — succeed when the first 8 characters exist
and are decimal digits, returning those 8 characters (nothing constrains
the 9th character in the regex). -/
def extract_shipment_from_filename (filename : List Char) : Option Ident :=
  if 8 ≤ (basename filename).length ∧ ((basename filename).take 8).all Char.isDigit then
    some ((basename filename).take 8)
  else
    none

/-- Embeds `clean_excel_shipment`: `None` for a missing cell (`pd.isna`),
otherwise keep only the digits of the string form and accept exactly 8. -/
def clean_excel_shipment (val : Option (List Char)) : Option Ident :=
  match val with
  | none => none
  | some s =>
    if (s.filter Char.isDigit).length = 8 then some (s.filter Char.isDigit) else none

/-- Helper for `dedupFirst`: drop every element already seen earlier. -/
def dedupFirstAux (seen : List Ident) : List Ident → List Ident
  | [] => []
  | x :: xs =>
    if x ∈ seen then dedupFirstAux seen xs
    else x :: dedupFirstAux (x :: seen) xs

/-- `Series.drop_duplicates()` with pandas' default `keep=first`:
retain the first occurrence of every element. -/
def dedupFirst (l : List Ident) : List Ident :=
  dedupFirstAux [] l

deriving instance DecidableEq for Except

/-- The errors that abort a run (`st.error`/`st.warning` + `st.stop`).
`UnparsableInput` (a spreadsheet or archive that cannot be decoded at all)
lives outside the embedded pure core. -/
inductive RunError
  | missingColumn
  | noValidIdentifiers
deriving DecidableEq, Repr

/-- The pandas DataFrame as far as the core logic observes it: an ordered
list of named columns, each a list of optional string cells. -/
structure DataFrame where
  cols : List (String × List (Option (List Char)))
deriving DecidableEq

/-- `df.columns`. -/
def DataFrame.columns (df : DataFrame) : List String :=
  df.cols.map Prod.fst

/-- `df[name]`: the first column carrying that exact name, if any. -/
def DataFrame.getCol (df : DataFrame) (name : String) :
    Option (List (Option (List Char))) :=
  (df.cols.find? (fun c => c.1 == name)).map Prod.snd

/-- The required column header, exact and case-sensitive. -/
def shipmentColumnName : String := "Shipment No."

/-- Embeds `read_excel_shipment_column` (after the file has been parsed):
abort when the `Shipment No.` column is absent; otherwise map
`clean_excel_shipment` over the column, drop failures, deduplicate keeping
first occurrences, and also return the original cells of the failing rows
(the code projects the invalid rows onto the `Shipment No.` column). -/
def read_excel_shipment_column (df : DataFrame) :
    Except RunError (List Ident × List (Option (List Char))) :=
  match df.getCol shipmentColumnName with
  | none => .error .missingColumn
  | some cells =>
    let series := cells.map clean_excel_shipment
    let valid := dedupFirst (series.filterMap id)
    let invalid := cells.filter (fun c => (clean_excel_shipment c).isNone)
    .ok (valid, invalid)

/-- Python truthiness of `if ship:` on an `Optional[str]`: `None` and the
empty string are falsy. -/
def keepTruthy (o : Option Ident) : Option Ident :=
  match o with
  | some s => if s.isEmpty then none else some s
  | none => none

/-- Embeds `extract_from_uploaded_files`: collect the set of successful
(truthy) filename extractions over the uploaded names. -/
def extract_from_uploaded_files (names : List (List Char)) : Finset Ident :=
  (names.filterMap (fun n => keepTruthy (extract_shipment_from_filename n))).toFinset

/-- A zip entry as `zipfile` reports it: a full entry name (possibly with
internal `/` separators) and the directory flag. -/
structure ZipEntry where
  filename : List Char
  isDir : Bool
deriving DecidableEq

/-- Embeds `extract_from_zip` (after the archive has been opened): skip
directory entries, take each entry's base name, and collect the set of
successful (truthy) filename extractions. -/
def extract_from_zip (entries : List ZipEntry) : Finset Ident :=
  ((entries.filter (fun e => !e.isDir)).filterMap
    (fun e => keepTruthy (extract_shipment_from_filename (basename e.filename)))).toFinset

/-- Which kind of processed-files input the caller supplied; exactly one is
used per run (`uploaded_zip is not None` selects the archive path). -/
inductive Source
  | files (names : List (List Char))
  | zip (entries : List ZipEntry)

/-- `folder_shipments`: the observed identifier set of the selected source. -/
def sourceShipments : Source → Finset Ident
  | .files names => extract_from_uploaded_files names
  | .zip entries => extract_from_zip entries

/-- Everything the run hands to the UI and to the two exports: the
`Summary` rows (`result_df`), the `Missing` rows (`missing_df`), the sorted
`FolderShipments` listing, the three metrics, and the constant column and
sheet names used by the exports. -/
structure RunOutput where
  result_rows : List (Ident × Bool)
  missing_rows : List Ident
  folder_listing : List Ident
  metric_folder : Nat
  metric_excel : Nat
  metric_missing : Nat
  missing_columns : List String
  missing_sheet : String
  summary_columns : List String
  summary_sheet : String
  folder_column : String
  folder_sheet : String
deriving DecidableEq

/-- Embeds the `if run:` block: read and clean the spreadsheet column
(aborting on a missing column), abort when no valid identifier survives,
build the observed set from the selected source, and assemble
`result_df`, `missing_df`, the sorted folder listing and the metrics. -/
def runCheck (df : DataFrame) (src : Source) : Except RunError RunOutput := do
  let (valid_shipments, _invalid_rows) ← read_excel_shipment_column df
  if valid_shipments.isEmpty then
    throw .noValidIdentifiers
  let folder_set := sourceShipments src
  let result_rows := valid_shipments.map (fun s => (s, decide (s ∈ folder_set)))
  let missing_rows := (result_rows.filter (fun p => !p.2)).map Prod.fst
  pure {
    result_rows := result_rows
    missing_rows := missing_rows
    folder_listing := folder_set.sort (· ≤ ·)
    metric_folder := folder_set.card
    metric_excel := valid_shipments.length
    metric_missing := missing_rows.length
    missing_columns := [shipmentColumnName]
    missing_sheet := "Missing"
    summary_columns := [shipmentColumnName, "Present"]
    summary_sheet := "Summary"
    folder_column := "FolderShipments"
    folder_sheet := "FolderSet" }

/-! ### Concrete sample inputs, used to witness the theorems -/

/-- A two-row table whose cells are the identifiers `11111111`, `22222222`. -/
def dfPair : DataFrame :=
  ⟨[(shipmentColumnName, [some (("11111111").data), some (("22222222").data)])]⟩

/-- A single uploaded file covering the identifier `22222222`. -/
def srcPair : Source := .files [("22222222_x.pdf").data]

/-- A table with one valid cell, one too-short cell and one null cell. -/
def dfMixed : DataFrame :=
  ⟨[(shipmentColumnName, [some (("1234-5678").data), some (("123").data), none])]⟩

/-- A table whose two cells normalize to the same identifier. -/
def dfDup : DataFrame :=
  ⟨[(shipmentColumnName, [some (("12345678").data), some (("1-2345678").data)])]⟩

/-- A table whose only column lacks the trailing period of the header. -/
def dfNoCol : DataFrame := ⟨[(("Shipment No"), [some (("12345678").data)])]⟩

/-- A table with a single cell that fails normalization. -/
def dfInvalidOnly : DataFrame := ⟨[(shipmentColumnName, [some (("123").data)])]⟩

/-- A one-row table containing only the identifier `11111111`. -/
def dfSingle : DataFrame := ⟨[(shipmentColumnName, [some (("11111111").data)])]⟩

/-- A small archive: a nested file, a directory entry, a non-matching file. -/
def sampleZipEntries : List ZipEntry :=
  [⟨("dir/10000000_a.pdf").data, false⟩, ⟨("dir/").data, true⟩,
   ⟨("bad.pdf").data, false⟩]

/-- The base names of the non-directory entries of `sampleZipEntries`. -/
def sampleZipNames : List (List Char) :=
  [("10000000_a.pdf").data, ("bad.pdf").data]

/-- The acceptance condition claim C1 states for filename extraction, in the
spec's words: the base name starts with *exactly* 8 decimal digits — eight
digits followed by either the end of the name or a non-digit character. -/
def startsWithExactlyEightDigits (cs : List Char) : Bool :=
  ((basename cs).take 8).length == 8 &&
    ((basename cs).take 8).all Char.isDigit &&
    (match (basename cs).drop 8 with
     | [] => true
     | c :: _ => !c.isDigit)

/-! ### Helper lemmas -/

theorem mem_dedupFirstAux (l : List Ident) :
    ∀ (seen : List Ident) (x : Ident),
      x ∈ dedupFirstAux seen l ↔ x ∈ l ∧ x ∉ seen := by
  induction l with
  | nil => intro seen x; simp [dedupFirstAux]
  | cons y ys ih =>
    intro seen x
    by_cases hy : y ∈ seen
    · simp only [dedupFirstAux, if_pos hy, ih, List.mem_cons]
      constructor
      · rintro ⟨hx, hns⟩
        exact ⟨Or.inr hx, hns⟩
      · rintro ⟨rfl | hx, hns⟩
        · exact absurd hy hns
        · exact ⟨hx, hns⟩
    · simp only [dedupFirstAux, if_neg hy, List.mem_cons, ih, not_or]
      constructor
      · rintro (rfl | ⟨hx, _, hns⟩)
        · exact ⟨Or.inl rfl, hy⟩
        · exact ⟨Or.inr hx, hns⟩
      · rintro ⟨rfl | hx, hns⟩
        · exact Or.inl rfl
        · by_cases hxy : x = y
          · exact Or.inl hxy
          · exact Or.inr ⟨hx, hxy, hns⟩

theorem nodup_dedupFirstAux (l : List Ident) :
    ∀ seen : List Ident, (dedupFirstAux seen l).Nodup := by
  induction l with
  | nil => intro seen; simp [dedupFirstAux]
  | cons y ys ih =>
    intro seen
    by_cases hy : y ∈ seen
    · simpa [dedupFirstAux, if_pos hy] using ih seen
    · simp only [dedupFirstAux, if_neg hy, List.nodup_cons]
      refine ⟨fun hmem => ?_, ih (y :: seen)⟩
      exact ((mem_dedupFirstAux ys (y :: seen) y).mp hmem).2 (List.mem_cons_self y seen)

theorem mem_dedupFirst (l : List Ident) (x : Ident) :
    x ∈ dedupFirst l ↔ x ∈ l := by
  simp [dedupFirst, mem_dedupFirstAux]

theorem nodup_dedupFirst (l : List Ident) : (dedupFirst l).Nodup :=
  nodup_dedupFirstAux l []

theorem extract_length_eq (n : List Char) (r : Ident)
    (h : extract_shipment_from_filename n = some r) : r.length = 8 := by
  unfold extract_shipment_from_filename at h
  split at h
  · rename_i hcond
    cases h
    rw [List.length_take]
    exact Nat.min_eq_left hcond.1
  · cases h

theorem keepTruthy_extract (n : List Char) :
    keepTruthy (extract_shipment_from_filename n) = extract_shipment_from_filename n := by
  cases hx : extract_shipment_from_filename n with
  | none => rfl
  | some r =>
    have hlen := extract_length_eq n r hx
    cases r with
    | nil => simp at hlen
    | cons c cs => rfl

theorem mem_extract_from_uploaded_files (names : List (List Char)) (x : Ident) :
    x ∈ extract_from_uploaded_files names ↔
      ∃ n ∈ names, extract_shipment_from_filename n = some x := by
  simp only [extract_from_uploaded_files, List.mem_toFinset, List.mem_filterMap,
    keepTruthy_extract]

theorem clean_some_eq (s : List Char) :
    clean_excel_shipment (some s) =
      if (s.filter Char.isDigit).length = 8 then some (s.filter Char.isDigit) else none := rfl

theorem clean_shape (v : Option (List Char)) (r : Ident)
    (h : clean_excel_shipment v = some r) :
    (∀ c ∈ r, c.isDigit) ∧ r.length = 8 := by
  cases v with
  | none => cases h
  | some s =>
    rw [clean_some_eq] at h
    by_cases hlen : (s.filter Char.isDigit).length = 8
    · rw [if_pos hlen] at h
      cases h
      exact ⟨fun c hc => (List.mem_filter.mp hc).2, hlen⟩
    · rw [if_neg hlen] at h
      cases h

theorem clean_fixed (r : Ident) (hd : ∀ c ∈ r, c.isDigit) (hl : r.length = 8) :
    clean_excel_shipment (some r) = some r := by
  have hfix : r.filter Char.isDigit = r := List.filter_eq_self.mpr hd
  simp [clean_excel_shipment, hfix, hl]

theorem read_excel_ok_inv (df : DataFrame) (valid : List Ident)
    (invalid : List (Option (List Char)))
    (h : read_excel_shipment_column df = .ok (valid, invalid)) :
    ∃ cells, df.getCol shipmentColumnName = some cells ∧
      valid = dedupFirst ((cells.map clean_excel_shipment).filterMap id) ∧
      invalid = cells.filter (fun c => (clean_excel_shipment c).isNone) := by
  unfold read_excel_shipment_column at h
  cases hcol : df.getCol shipmentColumnName with
  | none => rw [hcol] at h; cases h
  | some cells =>
    rw [hcol] at h
    cases h
    exact ⟨cells, rfl, rfl, rfl⟩

theorem mem_valid_iff (cells : List (Option (List Char))) (x : Ident) :
    x ∈ dedupFirst ((cells.map clean_excel_shipment).filterMap id) ↔
      ∃ c ∈ cells, clean_excel_shipment c = some x := by
  rw [mem_dedupFirst]
  simp only [List.filterMap_map, List.mem_filterMap]
  constructor
  · rintro ⟨c, hc, hx⟩
    exact ⟨c, hc, hx⟩
  · rintro ⟨c, hc, hx⟩
    exact ⟨c, hc, hx⟩

theorem missing_eq_filter (valid : List Ident) (fs : Finset Ident) :
    ((valid.map (fun s => (s, decide (s ∈ fs)))).filter (fun p => !p.2)).map Prod.fst
      = valid.filter (fun s => decide (s ∉ fs)) := by
  induction valid with
  | nil => rfl
  | cons x xs ih =>
    by_cases h : x ∈ fs <;>
      simp [List.filter_cons, h, ih]

theorem map_fst_map_pair (l : List Ident) (f : Ident → Bool) :
    (l.map (fun s => (s, f s))).map Prod.fst = l := by
  induction l with
  | nil => rfl
  | cons a t ih => simp only [List.map_cons, ih]

theorem runCheck_ok_of (df : DataFrame) (src : Source) (valid : List Ident)
    (invalid : List (Option (List Char)))
    (hread : read_excel_shipment_column df = .ok (valid, invalid))
    (hne : valid.isEmpty = false) :
    runCheck df src = .ok {
      result_rows := valid.map (fun s => (s, decide (s ∈ sourceShipments src)))
      missing_rows := valid.filter (fun s => decide (s ∉ sourceShipments src))
      folder_listing := (sourceShipments src).sort (· ≤ ·)
      metric_folder := (sourceShipments src).card
      metric_excel := valid.length
      metric_missing := (valid.filter (fun s => decide (s ∉ sourceShipments src))).length
      missing_columns := [shipmentColumnName]
      missing_sheet := "Missing"
      summary_columns := [shipmentColumnName, "Present"]
      summary_sheet := "Summary"
      folder_column := "FolderShipments"
      folder_sheet := "FolderSet" } := by
  simp only [runCheck, hread, bind, Except.bind, hne, Bool.false_eq_true, if_false,
    missing_eq_filter, pure, Except.pure]

theorem runCheck_ok_inv (df : DataFrame) (src : Source) (valid : List Ident)
    (invalid : List (Option (List Char))) (out : RunOutput)
    (hread : read_excel_shipment_column df = .ok (valid, invalid))
    (hrun : runCheck df src = .ok out) :
    valid ≠ [] ∧
    out.result_rows = valid.map (fun s => (s, decide (s ∈ sourceShipments src))) ∧
    out.missing_rows = valid.filter (fun s => decide (s ∉ sourceShipments src)) ∧
    out.folder_listing = (sourceShipments src).sort (· ≤ ·) ∧
    out.metric_folder = (sourceShipments src).card ∧
    out.metric_excel = valid.length ∧
    out.metric_missing = out.missing_rows.length ∧
    out.missing_columns = [shipmentColumnName] ∧
    out.summary_columns = [shipmentColumnName, "Present"] ∧
    out.folder_column = "FolderShipments" := by
  cases hne : valid.isEmpty with
  | true =>
    have : runCheck df src = .error .noValidIdentifiers := by
      simp only [runCheck, hread, bind, Except.bind, hne, if_true, throw, throwThe,
        MonadExceptOf.throw]
    rw [this] at hrun
    cases hrun
  | false =>
    have heq := runCheck_ok_of df src valid invalid hread hne
    rw [heq] at hrun
    cases hrun
    refine ⟨by simpa [List.isEmpty_iff] using hne, rfl, rfl, rfl, rfl, rfl, rfl, rfl, rfl, rfl⟩

/-! ### Claim theorems -/

/-- C1 fails as stated: the claim requires extraction to fail when more than
8 digits precede the first non-digit, but the anchored regex
`^(\d{8})` happily matches the first 8 characters of a 9-digit prefix.
On `123456789.pdf` the base name does not start with exactly 8 digits,
yet extraction succeeds and returns `12345678`. -/
theorem C1_counterexample :
    extract_shipment_from_filename (("123456789.pdf").data)
        = some (("12345678").data) ∧
    startsWithExactlyEightDigits (("123456789.pdf").data) = false := by
  exact ⟨by decide, by decide⟩

/-- C1 (amended): extraction succeeds iff the final path component starts
with *at least* 8 decimal digits (its first 8 characters are digits); fewer
leading digits, or digits not at the very start, fail; on success the
identifier is exactly the first 8 characters of the base name, regardless
of what follows. -/
theorem C1_extract_iff_digit_prefix (f : List Char) (r : Ident) :
    extract_shipment_from_filename f = some r ↔
      ∃ rest, basename f = r ++ rest ∧ r.length = 8 ∧ ∀ c ∈ r, c.isDigit := by
  unfold extract_shipment_from_filename
  by_cases h : 8 ≤ (basename f).length ∧ ((basename f).take 8).all Char.isDigit
  · rw [if_pos h]
    simp only [Option.some.injEq]
    constructor
    · rintro rfl
      refine ⟨(basename f).drop 8, (List.take_append_drop 8 (basename f)).symm, ?_, ?_⟩
      · rw [List.length_take]
        exact Nat.min_eq_left h.1
      · intro c hc
        exact List.all_eq_true.mp h.2 c hc
    · rintro ⟨rest, hdec, hlen, hdig⟩
      rw [hdec, ← hlen, List.take_left]
  · rw [if_neg h]
    constructor
    · intro hfalse
      cases hfalse
    · rintro ⟨rest, hdec, hlen, hdig⟩
      exfalso
      apply h
      have htake : (basename f).take 8 = r := by
        rw [hdec, ← hlen, List.take_left]
      constructor
      · rw [hdec, List.length_append, hlen]
        exact Nat.le_add_right 8 rest.length
      · rw [htake]
        exact List.all_eq_true.mpr hdig

/-- C3: spreadsheet-cell extraction succeeds iff stripping every non-digit
character from the string form of the cell leaves exactly 8 digits; a
missing/null cell always fails; on success the identifier is that 8-digit
string. -/
theorem C3_clean_cell_iff (v : Option (List Char)) (r : Ident) :
    (clean_excel_shipment v = some r ↔
      ∃ s, v = some s ∧ (s.filter Char.isDigit).length = 8 ∧
        r = s.filter Char.isDigit) ∧
    clean_excel_shipment none = none := by
  refine ⟨?_, rfl⟩
  cases v with
  | none =>
    constructor
    · intro h
      cases h
    · rintro ⟨s, hs, -, -⟩
      cases hs
  | some s =>
    rw [clean_some_eq]
    by_cases hlen : (s.filter Char.isDigit).length = 8
    · rw [if_pos hlen]
      simp only [Option.some.injEq]
      constructor
      · rintro rfl
        exact ⟨s, rfl, hlen, rfl⟩
      · rintro ⟨s', hs', hlen', rfl⟩
        cases hs'
        rfl
    · rw [if_neg hlen]
      constructor
      · intro h
        cases h
      · rintro ⟨s', hs', hlen', rfl⟩
        cases hs'
        exact absurd hlen' hlen

/-- C2: for every expected identifier sequence and observed set, the missing
rows are exactly the expected identifiers not in the observed set, in the
expected sequence's order (a sublist of it), and the reported "Missing
shipments" metric equals their number. -/
theorem C2_missing_subsequence (df : DataFrame) (src : Source) (valid : List Ident)
    (invalid : List (Option (List Char))) (out : RunOutput)
    (hread : read_excel_shipment_column df = .ok (valid, invalid))
    (hrun : runCheck df src = .ok out) :
    out.missing_rows = valid.filter (fun s => decide (s ∉ sourceShipments src)) ∧
    (∀ x, x ∈ out.missing_rows ↔ x ∈ valid ∧ x ∉ sourceShipments src) ∧
    out.missing_rows.Sublist valid ∧
    out.metric_missing = out.missing_rows.length := by
  obtain ⟨-, -, hmiss, -, -, -, hcount, -, -, -⟩ :=
    runCheck_ok_inv df src valid invalid out hread hrun
  refine ⟨hmiss, ?_, ?_, hcount⟩
  · intro x
    rw [hmiss]
    simp [List.mem_filter]
  · rw [hmiss]
    exact List.filter_sublist valid

/-- Witness for C2 at a concrete run: expected `11111111, 22222222`,
observed `22222222`; the missing rows are exactly `11111111`. -/
theorem C2_witness :
    ∃ out,
      runCheck dfPair srcPair = .ok out ∧
      (out.missing_rows =
        [("11111111").data, ("22222222").data].filter
          (fun s => decide (s ∉ sourceShipments srcPair)) ∧
      (∀ x, x ∈ out.missing_rows ↔
        x ∈ [("11111111").data, ("22222222").data] ∧ x ∉ sourceShipments srcPair) ∧
      out.missing_rows.Sublist [("11111111").data, ("22222222").data] ∧
      out.metric_missing = out.missing_rows.length) :=
  ⟨_, rfl,
    C2_missing_subsequence dfPair srcPair
      [("11111111").data, ("22222222").data] [] _ rfl rfl⟩

/-- C4: the tabular reader returns, alongside the valid identifiers, the
original cells whose extraction failed; every invalid entry fails
normalization and its value never occurs in the expected set. -/
theorem C4_invalid_rows (df : DataFrame) (valid : List Ident)
    (invalid : List (Option (List Char)))
    (hread : read_excel_shipment_column df = .ok (valid, invalid)) :
    (∀ cells, df.getCol shipmentColumnName = some cells →
       invalid = cells.filter (fun c => (clean_excel_shipment c).isNone)) ∧
    (∀ c ∈ invalid, clean_excel_shipment c = none) ∧
    (∀ s : List Char, some s ∈ invalid → s ∉ valid) := by
  obtain ⟨cells, hcol, hvalid, hinvalid⟩ := read_excel_ok_inv df valid invalid hread
  refine ⟨?_, ?_, ?_⟩
  · intro cells' hcol'
    rw [hcol'] at hcol
    cases hcol
    exact hinvalid
  · intro c hc
    rw [hinvalid] at hc
    exact Option.isNone_iff_eq_none.mp (List.mem_filter.mp hc).2
  · intro s hs hsval
    have hclean : clean_excel_shipment (some s) = none := by
      rw [hinvalid] at hs
      exact Option.isNone_iff_eq_none.mp (List.mem_filter.mp hs).2
    rw [hvalid, mem_valid_iff] at hsval
    obtain ⟨c, hc, hcs⟩ := hsval
    obtain ⟨hdig, hlen⟩ := clean_shape c s hcs
    rw [clean_fixed s hdig hlen] at hclean
    cases hclean

/-- Witness for C4 at a concrete table: cells `1234-5678`, `123` and a null
cell give expected set `12345678` and invalid report `123`, null. -/
theorem C4_witness :
    read_excel_shipment_column dfMixed
      = .ok ([("12345678").data], [some (("123").data), none]) ∧
    (∀ c ∈ [some (("123").data), none], clean_excel_shipment c = none) ∧
    (∀ s : List Char, some s ∈ [some (("123").data), (none : Option (List Char))] →
      s ∉ [("12345678").data]) :=
  ⟨rfl,
    (C4_invalid_rows dfMixed [("12345678").data] [some (("123").data), none] rfl).2.1,
    (C4_invalid_rows dfMixed [("12345678").data] [some (("123").data), none] rfl).2.2⟩

/-- C5: the expected set contains no duplicates; an identifier appears in it
iff some cell of the column normalizes to it, so rows normalizing to the
same 8-digit string contribute exactly one entry. -/
theorem C5_expected_set_nodup (df : DataFrame) (valid : List Ident)
    (invalid : List (Option (List Char)))
    (hread : read_excel_shipment_column df = .ok (valid, invalid)) :
    valid.Nodup ∧
    ∀ cells, df.getCol shipmentColumnName = some cells →
      ∀ x, x ∈ valid ↔ ∃ c ∈ cells, clean_excel_shipment c = some x := by
  obtain ⟨cells, hcol, hvalid, -⟩ := read_excel_ok_inv df valid invalid hread
  constructor
  · rw [hvalid]
    exact nodup_dedupFirst _
  · intro cells' hcol' x
    rw [hcol'] at hcol
    cases hcol
    rw [hvalid, mem_valid_iff]

/-- Witness for C5 at a concrete table: the cells `12345678` and `1-2345678`
normalize to the same identifier and yield a one-element expected set. -/
theorem C5_witness :
    read_excel_shipment_column dfDup = .ok ([("12345678").data], []) ∧
    ([("12345678").data] : List Ident).Nodup :=
  ⟨rfl, (C5_expected_set_nodup dfDup [("12345678").data] [] rfl).1⟩

/-- C6: a table without a column named exactly `Shipment No.` makes both the
reader and the whole run abort with the missing-column error, producing no
output. -/
theorem C6_missing_column_aborts (df : DataFrame) (src : Source)
    (habs : shipmentColumnName ∉ df.columns) :
    read_excel_shipment_column df = .error .missingColumn ∧
    runCheck df src = .error .missingColumn := by
  have hfind : df.cols.find? (fun c => c.1 == shipmentColumnName) = none :=
    List.find?_eq_none.mpr (fun c hc => by
      simp only [beq_iff_eq]
      intro heq
      exact habs (heq ▸ List.mem_map_of_mem Prod.fst hc))
  have hcol : df.getCol shipmentColumnName = none := by
    unfold DataFrame.getCol
    rw [hfind]
    rfl
  have hread : read_excel_shipment_column df = .error .missingColumn := by
    unfold read_excel_shipment_column
    rw [hcol]
  refine ⟨hread, ?_⟩
  simp only [runCheck, hread, bind, Except.bind]

/-- Witness for C6 at a concrete table whose header lacks the trailing
period. -/
theorem C6_witness :
    read_excel_shipment_column dfNoCol = .error .missingColumn ∧
    runCheck dfNoCol (Source.files []) = .error .missingColumn :=
  C6_missing_column_aborts dfNoCol (Source.files []) (by decide)

/-- C7: when no valid identifier survives cleaning and deduplication, the
run aborts with the warning instead of producing an empty report. -/
theorem C7_empty_expected_aborts (df : DataFrame) (src : Source)
    (invalid : List (Option (List Char)))
    (hread : read_excel_shipment_column df = .ok ([], invalid)) :
    runCheck df src = .error .noValidIdentifiers := by
  simp only [runCheck, hread, bind, Except.bind, List.isEmpty_nil, if_true,
    throw, throwThe, MonadExceptOf.throw]

/-- Witness for C7 at a concrete table whose only cell cleans to 3 digits. -/
theorem C7_witness :
    runCheck dfInvalidOnly (Source.files []) = .error .noValidIdentifiers :=
  C7_empty_expected_aborts dfInvalidOnly (Source.files []) [some (("123").data)] rfl

/-- C8: the multi-file reader on a list of names and the archive reader on
an archive whose non-directory entry base names are exactly those names
produce the same observed set. -/
theorem C8_zip_files_equivalence (names : List (List Char)) (entries : List ZipEntry)
    (h : (entries.filter (fun e => !e.isDir)).map (fun e => basename e.filename)
          = names) :
    extract_from_zip entries = extract_from_uploaded_files names := by
  subst h
  unfold extract_from_zip extract_from_uploaded_files
  rw [List.filterMap_map]
  rfl

/-- Witness for C8 at a concrete archive with a nested entry, a directory
entry and a non-matching entry. -/
theorem C8_witness :
    extract_from_zip sampleZipEntries = extract_from_uploaded_files sampleZipNames :=
  C8_zip_files_equivalence sampleZipNames sampleZipEntries (by decide)

/-- C9: the Summary export has one row per expected identifier carrying its
presence flag under columns `Shipment No.` and `Present`, plus a
`FolderShipments` listing of the observed set sorted ascending (with no
duplicates). -/
theorem C9_summary_export (df : DataFrame) (src : Source) (valid : List Ident)
    (invalid : List (Option (List Char))) (out : RunOutput)
    (hread : read_excel_shipment_column df = .ok (valid, invalid))
    (hrun : runCheck df src = .ok out) :
    out.summary_columns = [shipmentColumnName, ("Present")] ∧
    out.result_rows.map Prod.fst = valid ∧
    (∀ p ∈ out.result_rows, p.2 = true ↔ p.1 ∈ sourceShipments src) ∧
    out.folder_column = ("FolderShipments") ∧
    List.Sorted (· ≤ ·) out.folder_listing ∧
    out.folder_listing.Nodup ∧
    (∀ x, x ∈ out.folder_listing ↔ x ∈ sourceShipments src) := by
  obtain ⟨-, hrows, -, hlist, -, -, -, -, hsc, hfc⟩ :=
    runCheck_ok_inv df src valid invalid out hread hrun
  refine ⟨hsc, ?_, ?_, hfc, ?_, ?_, ?_⟩
  · rw [hrows]
    exact map_fst_map_pair valid _
  · intro p hp
    rw [hrows] at hp
    obtain ⟨s, hs, rfl⟩ := List.mem_map.mp hp
    simp
  · rw [hlist]
    exact Finset.sort_sorted _ _
  · rw [hlist]
    exact Finset.sort_nodup _ _
  · intro x
    rw [hlist]
    exact Finset.mem_sort _

/-- Witness for C9 at a concrete run fed by the sample archive. -/
theorem C9_witness :
    ∃ out, runCheck dfSingle (Source.zip sampleZipEntries) = .ok out ∧
      (out.summary_columns = [shipmentColumnName, ("Present")] ∧
      out.result_rows.map Prod.fst = [("11111111").data] ∧
      (∀ p ∈ out.result_rows,
        p.2 = true ↔ p.1 ∈ sourceShipments (Source.zip sampleZipEntries)) ∧
      out.folder_column = ("FolderShipments") ∧
      List.Sorted (· ≤ ·) out.folder_listing ∧
      out.folder_listing.Nodup ∧
      (∀ x, x ∈ out.folder_listing ↔
        x ∈ sourceShipments (Source.zip sampleZipEntries))) :=
  ⟨_, rfl,
    C9_summary_export dfSingle (Source.zip sampleZipEntries)
      [("11111111").data] [] _ rfl rfl⟩

/-- C10: an empty observed set is not an error — with a non-empty expected
set and no extractable filename, the run completes, every presence flag is
false, the missing rows are the whole expected sequence, and the observed
count is 0. -/
theorem C10_empty_observed_completes (df : DataFrame) (valid : List Ident)
    (invalid : List (Option (List Char))) (names : List (List Char))
    (hread : read_excel_shipment_column df = .ok (valid, invalid))
    (hne : valid ≠ [])
    (hobs : extract_from_uploaded_files names = ∅) :
    ∃ out, runCheck df (Source.files names) = .ok out ∧
      out.metric_folder = 0 ∧
      out.result_rows.map Prod.fst = valid ∧
      (∀ p ∈ out.result_rows, p.2 = false) ∧
      out.missing_rows = valid ∧
      out.metric_missing = valid.length := by
  have hne' : valid.isEmpty = false := by
    cases valid with
    | nil => exact absurd rfl hne
    | cons a l => rfl
  have hfs : sourceShipments (Source.files names) = ∅ := hobs
  have hfilt : valid.filter
      (fun s => decide (s ∉ sourceShipments (Source.files names))) = valid := by
    rw [List.filter_eq_self]
    intro s hs
    simp [hfs]
  refine ⟨_, runCheck_ok_of df (Source.files names) valid invalid hread hne',
    ?_, ?_, ?_, ?_, ?_⟩
  · show (sourceShipments (Source.files names)).card = 0
    rw [hfs]
    exact Finset.card_empty
  · show (valid.map
      (fun s => (s, decide (s ∈ sourceShipments (Source.files names))))).map
        Prod.fst = valid
    exact map_fst_map_pair valid _
  · intro p hp
    obtain ⟨s, hs, rfl⟩ := List.mem_map.mp hp
    show decide (s ∈ sourceShipments (Source.files names)) = false
    simp [hfs]
  · exact hfilt
  · show (valid.filter
      (fun s => decide (s ∉ sourceShipments (Source.files names)))).length
        = valid.length
    rw [hfilt]

/-- Witness for C10 at a concrete run with one expected identifier and an
empty upload. -/
theorem C10_witness :
    ∃ out, runCheck dfSingle (Source.files []) = .ok out ∧
      out.metric_folder = 0 ∧
      out.result_rows.map Prod.fst = [("11111111").data] ∧
      (∀ p ∈ out.result_rows, p.2 = false) ∧
      out.missing_rows = [("11111111").data] ∧
      out.metric_missing = ([("11111111").data] : List Ident).length :=
  C10_empty_observed_completes dfSingle [("11111111").data] [] []
    rfl (by decide) (by decide)

end RieckShipments
